import Mathlib

/-!
Shallow embedding of `src/reddit_source.py` (class `RedditSource`), the Reddit
mention collector of the sentiment-tracker repository.

Timestamps are modelled as `Int` epoch seconds: `datetime.fromtimestamp`
becomes the identity, `datetime.now() - timedelta(hours=24)` becomes
`now - 86400`, and datetime comparison becomes integer comparison.

The external collaborators (the PRAW client, the JSON library, the base
collaborator's `validate_mention`) are not part of this repository's source:
they enter the embedding as parameters (`Client`, `KeywordsField`,
`validate`), so every theorem quantifies over their behaviour.
-/

set_option autoImplicit false

namespace SentimentTracker

/-- A platform comment object (`CommentLike`): the fields of a PRAW comment
read by `RedditSource.collect`. -/
structure RComment where
  id : String
  body : String
  permalink : String
  author : Option String
  created_utc : Int
  score : Int
  deriving Repr, DecidableEq

/-- A platform post object (`PostLike`): the fields of a PRAW submission read
by `RedditSource.collect`.  `commentsResult` models the outcome of
`submission.comments.replace_more(limit=0)` followed by
`submission.comments.list()`: either the fetched comment list or a raised
error (caught by the per-subreddit handler). -/
structure Submission where
  id : String
  title : String
  selftext : String
  permalink : String
  author : Option String
  created_utc : Int
  score : Int
  num_comments : Int
  commentsResult : Except String (List RComment)

/-- The raw/normalized mention record built by `RedditSource.collect`
(lines 73-80 and 92-99 of `src/reddit_source.py`). -/
structure Mention where
  text : String
  url : String
  author : String
  post_id : String
  posted_at : Int
  engagement_score : Int
  deriving Repr, DecidableEq

/-- The `keywords` field of a topic dict, as seen by `json.loads`: either a
value that parses to a JSON array of strings, or a value on which `json.loads`
raises (the JSON library is external to the repository, so its outcome is
carried by the field). -/
inductive KeywordsField where
  | valid (xs : List String)
  | invalid (err : String)
  deriving Repr, DecidableEq

/-- The topic dict: `topic.get('type', 'topic')` and
`topic.get('keywords', '[]')` are the two accesses the source makes.
A missing key is `none`. -/
structure Topic where
  type : Option String
  keywords : Option KeywordsField

/-- The collector config dict: `config.get('client_id', '')`,
`config.get('client_secret', '')`, `config.get('user_agent', ...)` and
`config.get('subreddits', [])` are the four accesses the source makes. -/
structure Config where
  client_id : Option String
  client_secret : Option String
  user_agent : Option String
  subreddits : List String

/-- The PRAW client handle: `subreddit(name).search(keyword, ...)` is the one
query capability `collect` uses, modelled per (subreddit name, keyword); a
raised error is an `Except.error`. The fixed arguments
(`time_filter='day'`, `limit=50`, `sort='new'`) are constants in the source
and are absorbed into the black-box behaviour. -/
structure Client where
  search : String → String → Except String (List Submission)

/-- Python exceptions that can escape the functions of `reddit_source.py`:
`SourceCollectionError` (raised by the source), `json.JSONDecodeError`
(raised by `json.loads` on line 46, uncaught there), and
`SourceInitializationError`, which appears in the documentation of the
collector family but is never raised by this source. -/
inductive PyError where
  | sourceCollectionError (msg : String)
  | sourceInitializationError (msg : String)
  | jsonDecodeError (msg : String)
  deriving Repr, DecidableEq

/-- `json.loads` applied to a keywords field value. Modelled from the spec:
the JSON library is external to the repository; a parseable array yields its
elements, anything else raises `json.JSONDecodeError`. -/
def jsonLoads : KeywordsField → Except String (List String)
  | .valid xs => .ok xs
  | .invalid e => .error e

/-- Modelled from the spec: `normalize_mention` of the base collaborator
(`src/base_source.py` is not in the sources). The spec states its invariants
(`posted_at`, `post_id`, `engagement_score`) directly about the emitted
mentions, i.e. normalization preserves the raw mention's fields, so it is
modelled as the identity on the mention record. -/
def normalize_mention (m : Mention) : Mention := m

/-- The raw mention built for an in-window post
(`src/reddit_source.py` lines 73-80). -/
def postMention (s : Submission) : Mention :=
  { text := s.title ++ " " ++ s.selftext
  , url := "https://reddit.com" ++ s.permalink
  , author := s.author.getD "[deleted]"
  , post_id := "reddit_" ++ s.id
  , posted_at := s.created_utc
  , engagement_score := s.score + s.num_comments }

/-- The raw mention built for an in-window comment
(`src/reddit_source.py` lines 92-99). -/
def commentMention (c : RComment) : Mention :=
  { text := c.body
  , url := "https://reddit.com" ++ c.permalink
  , author := c.author.getD "[deleted]"
  , post_id := "reddit_" ++ c.id
  , posted_at := c.created_utc
  , engagement_score := c.score }

/-- The mentions contributed by one submission of a search result
(`src/reddit_source.py` lines 67-102), together with a flag telling whether
fetching/iterating its comments raised (in which case the per-subreddit
handler aborts the rest of that subreddit's submissions). A post older than
`since` is skipped by the `continue` on line 70, which skips its comment
collection as well. -/
def submissionMentions (validate : Mention → Bool) (since : Int)
    (s : Submission) : List Mention × Bool :=
  if s.created_utc < since then ([], false)
  else
    let m := postMention s
    let base := if validate m then [normalize_mention m] else []
    match s.commentsResult with
    | .error _ => (base, true)
    | .ok cs =>
      let cms := (cs.take 10).filterMap (fun c =>
        if c.created_utc < since then none
        else
          let cm := commentMention c
          if validate cm then some (normalize_mention cm) else none)
      (base ++ cms, false)

/-- Sequential processing of a subreddit's search results: on a raised error
the mentions appended so far are kept (the Python list is mutated in place)
and the rest of this subreddit's submissions are abandoned. -/
def processSubmissions (validate : Mention → Bool) (since : Int) :
    List Submission → List Mention
  | [] => []
  | s :: rest =>
    let r := submissionMentions validate since s
    if r.2 then r.1 else r.1 ++ processSubmissions validate since rest

/-- The mentions collected from one (keyword, subreddit) search
(`src/reddit_source.py` lines 57-106): a raised error is caught by the inner
`except`, logged, and the subreddit contributes what was accumulated before
the raise (nothing if the search call itself raised). -/
def collectFromSubreddit (client : Client) (validate : Mention → Bool)
    (since : Int) (keyword subredditName : String) : List Mention :=
  match client.search subredditName keyword with
  | .error _ => []
  | .ok subs => processSubmissions validate since subs

/-- `RedditSource._get_relevant_subreddits`
(`src/reddit_source.py` lines 113-129). -/
def getRelevantSubreddits (config : Config) (topic_type : String) :
    List String :=
  let custom_subreddits := config.subreddits
  if custom_subreddits ≠ [] then custom_subreddits
  else if topic_type = "stock" then
    ["wallstreetbets", "stocks", "investing", "stockmarket", "options"]
  else if topic_type = "topic" then
    ["technology", "Futurology", "science", "news"]
  else if topic_type = "keyword" then
    ["all"]
  else
    ["all"]

/-- The outcome of a `collect` call: the returned mention list plus the trace
of `subreddit.search` calls issued, as (keyword, subreddit) pairs in issue
order. -/
structure CollectResult where
  mentions : List Mention
  calls : List (String × String)
  deriving Repr, DecidableEq

/-- `RedditSource.collect` (`src/reddit_source.py` lines 36-111).
`since = none` models the omitted argument (line 42: `now − 24h`);
an unparseable `keywords` value propagates the uncaught `json.JSONDecodeError`
from line 46; an empty keyword list returns before any client use; otherwise
each (keyword, subreddit) pair is searched, per-subreddit errors being
swallowed inside `collectFromSubreddit`. -/
def collect (client : Client) (config : Config) (validate : Mention → Bool)
    (topic : Topic) (since : Option Int) (now : Int) :
    Except PyError CollectResult :=
  let sinceVal := since.getD (now - 86400)
  match jsonLoads (topic.keywords.getD (.valid [])) with
  | .error e => .error (.jsonDecodeError e)
  | .ok keywords =>
    if keywords = [] then .ok ⟨[], []⟩
    else
      let subreddits := getRelevantSubreddits config (topic.type.getD "topic")
      let pairs := keywords.flatMap (fun kw => subreddits.map (fun sr => (kw, sr)))
      .ok ⟨pairs.flatMap (fun p => collectFromSubreddit client validate sinceVal p.1 p.2),
           pairs⟩

/-- The collector state after `RedditSource.__init__`
(`src/reddit_source.py` lines 22-34). -/
structure RedditSourceState where
  source_id : Int
  source_name : String
  config : Config
  client : Client
  read_only : Bool

/-- `RedditSource.__init__` (`src/reddit_source.py` lines 22-34):
`praw_Reddit` is the external `praw.Reddit` constructor (client_id,
client_secret, user_agent → handle or raise); a raise is wrapped into
`SourceCollectionError("Failed to initialize Reddit client: " + cause)`. -/
def redditSourceInit (praw_Reddit : String → String → String → Except String Client)
    (source_id : Int) (source_name : String) (config : Config) :
    Except PyError RedditSourceState :=
  match praw_Reddit (config.client_id.getD "") (config.client_secret.getD "")
      (config.user_agent.getD "SocialSentimentTracker/1.0") with
  | .ok c => .ok ⟨source_id, source_name, config, c, true⟩
  | .error e =>
    .error (.sourceCollectionError ("Failed to initialize Reddit client: " ++ e))

/-- The `post_id` values of a successful `collect` result
(empty list on a raised call). -/
def mentionIds (r : Except PyError CollectResult) : List String :=
  match r with
  | .ok res => res.mentions.map Mention.post_id
  | .error _ => []

/-- The `engagement_score` values of a successful `collect` result. -/
def mentionEngagements (r : Except PyError CollectResult) : List Int :=
  match r with
  | .ok res => res.mentions.map Mention.engagement_score
  | .error _ => []

/-- Whether a construction outcome is a raised `SourceInitializationError`. -/
def isInitializationError (r : Except PyError RedditSourceState) : Bool :=
  match r with
  | .error (.sourceInitializationError _) => true
  | _ => false

/-- Strips the `"reddit_"` source prefix, recovering the platform-native id
from an emitted `post_id`. -/
def stripReddit (s : String) : String := s.drop 7

/-- A client identical to `c` except that searching subreddit `sr` for
keyword `kw` returns `subs` instead. -/
def replaceSearch (c : Client) (sr kw : String) (subs : List Submission) :
    Client :=
  ⟨fun s k => if s = sr ∧ k = kw then .ok subs else c.search s k⟩

/-! ### Concrete fixtures used by the per-claim examples and witnesses -/

/-- A client for which every search raises (never used) or returns nothing. -/
def emptyClient : Client := ⟨fun _ _ => .ok []⟩

/-- The first comment of the spec's engagement scenario: created 30 minutes
before `now = 100000`, score 2. -/
def c9Comment1 : RComment :=
  { id := "c1", body := "yes", permalink := "/r/wallstreetbets/p1/c1"
  , author := some "u2", created_utc := 98200, score := 2 }

/-- The second comment of the spec's engagement scenario. -/
def c9Comment2 : RComment :=
  { id := "c2", body := "no", permalink := "/r/wallstreetbets/p1/c2"
  , author := some "u3", created_utc := 98200, score := 2 }

/-- The post of the spec's engagement scenario: created 1 hour before
`now = 100000`, score 100, 5 comments. -/
def c9Post : Submission :=
  { id := "p1", title := "GME to the moon", selftext := "body"
  , permalink := "/r/wallstreetbets/p1", author := some "u1"
  , created_utc := 96400, score := 100, num_comments := 5
  , commentsResult := .ok [c9Comment1, c9Comment2] }

/-- A client that returns exactly `c9Post` for the (wallstreetbets, GME)
search and nothing elsewhere. -/
def c9Client : Client :=
  ⟨fun s k => if s = "wallstreetbets" ∧ k = "GME" then .ok [c9Post] else .ok []⟩

/-- Config overriding the communities to the single `wallstreetbets`. -/
def c9Config : Config := ⟨some "i", some "s", none, ["wallstreetbets"]⟩

/-- The spec's engagement-scenario topic. -/
def c9Topic : Topic := ⟨some "stock", some (.valid ["GME"])⟩

/-- The value `collect` returns on the engagement scenario. -/
def c9Result : CollectResult :=
  ⟨[postMention c9Post, commentMention c9Comment1, commentMention c9Comment2],
   [("GME", "wallstreetbets")]⟩

/-- A post with no comments, used to exhibit duplicate `post_id`s. -/
def dupPost : Submission :=
  { id := "p1", title := "t", selftext := "b", permalink := "/r/s1/p1"
  , author := none, created_utc := 10, score := 1, num_comments := 0
  , commentsResult := .ok [] }

/-- A client returning the same post for every (subreddit, keyword) search. -/
def dupClient : Client := ⟨fun _ _ => .ok [dupPost]⟩

/-- Config listing two communities, both of which return `dupPost`. -/
def dupConfig : Config := ⟨none, none, none, ["s1", "s2"]⟩

/-- A comment created 30 minutes before `now = 0`: inside a 24-hour window. -/
def staleFreshComment : RComment :=
  { id := "c9", body := "fresh", permalink := "/x/c9", author := none
  , created_utc := -1800, score := 3 }

/-- A post created 30 hours before `now = 0` (outside a 24-hour window)
carrying the in-window comment `staleFreshComment`. -/
def stalePost : Submission :=
  { id := "p2", title := "t", selftext := "b", permalink := "/x"
  , author := none, created_utc := -108000, score := 1, num_comments := 1
  , commentsResult := .ok [staleFreshComment] }

/-- A client returning `stalePost` for every search. -/
def staleClient : Client := ⟨fun _ _ => .ok [stalePost]⟩

/-- A client raising a connection error on `wallstreetbets` and returning
`c9Post` for every other community. -/
def c7Client : Client :=
  ⟨fun s _ => if s = "wallstreetbets" then .error "connection error"
              else .ok [c9Post]⟩

/-- Config listing `wallstreetbets` (which fails) and `stocks`. -/
def c7Config : Config := ⟨none, none, none, ["wallstreetbets", "stocks"]⟩

/-! ### Helper lemmas -/

/-- Every mention contributed by one submission has `posted_at` within the
window and a `reddit_`-namespaced `post_id`. -/
theorem mem_submissionMentions (validate : Mention → Bool) (since : Int)
    (s : Submission) (m : Mention)
    (hm : m ∈ (submissionMentions validate since s).1) :
    since ≤ m.posted_at ∧ ∃ nid, m.post_id = "reddit_" ++ nid := by
  by_cases hlt : s.created_utc < since
  · simp [submissionMentions, hlt] at hm
  · rcases hcr : s.commentsResult with e | cs
    · simp only [submissionMentions, if_neg hlt, hcr] at hm
      by_cases hv : validate (postMention s)
      · simp [hv, normalize_mention] at hm
        subst hm
        exact ⟨le_of_not_lt hlt, s.id, rfl⟩
      · simp [hv] at hm
    · simp only [submissionMentions, if_neg hlt, hcr] at hm
      rcases List.mem_append.mp hm with h | h
      · by_cases hv : validate (postMention s)
        · simp [hv, normalize_mention] at h
          subst h
          exact ⟨le_of_not_lt hlt, s.id, rfl⟩
        · simp [hv] at h
      · rcases List.mem_filterMap.mp h with ⟨c, _, hc⟩
        by_cases hct : c.created_utc < since
        · simp [hct] at hc
        · by_cases hcv : validate (commentMention c)
          · simp [hct, hcv, normalize_mention] at hc
            subst hc
            exact ⟨le_of_not_lt hct, c.id, rfl⟩
          · simp [hct, hcv] at hc

/-- Lifts `mem_submissionMentions` over a whole search-result list. -/
theorem mem_processSubmissions (validate : Mention → Bool) (since : Int)
    (l : List Submission) (m : Mention)
    (hm : m ∈ processSubmissions validate since l) :
    since ≤ m.posted_at ∧ ∃ nid, m.post_id = "reddit_" ++ nid := by
  induction l with
  | nil => simp [processSubmissions] at hm
  | cons s rest ih =>
    simp only [processSubmissions] at hm
    cases herr : (submissionMentions validate since s).2 with
    | true =>
      rw [herr] at hm
      simp at hm
      exact mem_submissionMentions validate since s m hm
    | false =>
      rw [herr] at hm
      simp at hm
      rcases hm with h | h
      · exact mem_submissionMentions validate since s m h
      · exact ih h

/-- Lifts the invariant over one (keyword, subreddit) search. -/
theorem mem_collectFromSubreddit (client : Client) (validate : Mention → Bool)
    (since : Int) (kw sr : String) (m : Mention)
    (hm : m ∈ collectFromSubreddit client validate since kw sr) :
    since ≤ m.posted_at ∧ ∃ nid, m.post_id = "reddit_" ++ nid := by
  unfold collectFromSubreddit at hm
  cases h : client.search sr kw with
  | error e => rw [h] at hm; simp at hm
  | ok subs => rw [h] at hm; exact mem_processSubmissions validate since subs m hm

/-- `collect` on a parseable, non-empty keyword list: the result is the
concatenation of the per-(keyword, subreddit) collections, with the search
calls traced in issue order. -/
theorem collect_valid_eq (client : Client) (config : Config)
    (validate : Mention → Bool) (topic : Topic) (since : Option Int) (now : Int)
    (kws : List String)
    (hkw : jsonLoads (topic.keywords.getD (.valid [])) = .ok kws)
    (hne : kws ≠ []) :
    collect client config validate topic since now =
      .ok ⟨(kws.flatMap fun kw =>
              (getRelevantSubreddits config (topic.type.getD "topic")).map
                fun sr => (kw, sr)).flatMap
             (fun p => collectFromSubreddit client validate
                (since.getD (now - 86400)) p.1 p.2),
           kws.flatMap fun kw =>
             (getRelevantSubreddits config (topic.type.getD "topic")).map
               fun sr => (kw, sr)⟩ := by
  unfold collect
  rw [hkw]
  simp [hne]

/-- `collect` on an empty keyword list returns before any client use. -/
theorem collect_nil_eq (client : Client) (config : Config)
    (validate : Mention → Bool) (topic : Topic) (since : Option Int) (now : Int)
    (hkw : jsonLoads (topic.keywords.getD (.valid [])) = .ok []) :
    collect client config validate topic since now = .ok ⟨[], []⟩ := by
  unfold collect
  rw [hkw]
  simp

/-- `collect` on an unparseable keywords value propagates the JSON error. -/
theorem collect_invalid_eq (client : Client) (config : Config)
    (validate : Mention → Bool) (topic : Topic) (since : Option Int) (now : Int)
    (e : String)
    (hkw : jsonLoads (topic.keywords.getD (.valid [])) = .error e) :
    collect client config validate topic since now = .error (.jsonDecodeError e) := by
  unfold collect
  rw [hkw]

/-- Every mention of a successful `collect` run is in-window and carries a
`reddit_`-namespaced `post_id`. -/
theorem mem_collect_mentions (client : Client) (config : Config)
    (validate : Mention → Bool) (topic : Topic) (since : Option Int) (now : Int)
    (r : CollectResult)
    (hok : collect client config validate topic since now = .ok r)
    (m : Mention) (hm : m ∈ r.mentions) :
    since.getD (now - 86400) ≤ m.posted_at ∧
      ∃ nid, m.post_id = "reddit_" ++ nid := by
  cases hkw : jsonLoads (topic.keywords.getD (.valid [])) with
  | error e =>
    rw [collect_invalid_eq client config validate topic since now e hkw] at hok
    exact absurd hok (by simp)
  | ok kws =>
    by_cases hne : kws = []
    · subst hne
      rw [collect_nil_eq client config validate topic since now hkw] at hok
      cases hok
      simp at hm
    · rw [collect_valid_eq client config validate topic since now kws hkw hne] at hok
      cases hok
      rcases List.mem_flatMap.mp hm with ⟨p, hp1, hp⟩
      exact mem_collectFromSubreddit client validate _ p.1 p.2 m hp

/-- Replacing a failing (subreddit, keyword) search by an empty success does
not change any per-subreddit collection: both contribute no mentions there
and behave identically elsewhere. -/
theorem collectFromSubreddit_replaceSearch (client : Client)
    (validate : Mention → Bool) (sr kw e : String)
    (hfail : client.search sr kw = .error e) (since : Int) (k s : String) :
    collectFromSubreddit (replaceSearch client sr kw []) validate since k s =
      collectFromSubreddit client validate since k s := by
  unfold collectFromSubreddit replaceSearch
  by_cases h : s = sr ∧ k = kw
  · rcases h with ⟨h1, h2⟩
    subst h1; subst h2
    simp [hfail, processSubmissions]
  · simp [h]

/-! ### Claims -/

/-- C1, amended: `collect` performs no deduplication, so `post_id` values of
one run are pairwise distinct exactly when the platform-native ids underlying
the emitted mentions are; every emitted `post_id` is namespaced
`reddit_<native-id>`. -/
theorem collect_post_ids_nodup_of_native_ids_nodup (client : Client)
    (config : Config) (validate : Mention → Bool) (topic : Topic)
    (since : Option Int) (now : Int) (r : CollectResult)
    (hok : collect client config validate topic since now = .ok r)
    (hnative : (r.mentions.map (fun m => stripReddit m.post_id)).Nodup) :
    (r.mentions.map Mention.post_id).Nodup ∧
      ∀ m ∈ r.mentions, ∃ nid, m.post_id = "reddit_" ++ nid := by
  constructor
  · have hmm : r.mentions.map (fun m => stripReddit m.post_id)
        = (r.mentions.map Mention.post_id).map stripReddit := by
      rw [List.map_map]
      rfl
    rw [hmm] at hnative
    exact hnative.of_map
  · exact fun m hm =>
      (mem_collect_mentions client config validate topic since now r hok m hm).2

/-- Witness for C1's amended theorem on the engagement scenario, whose three
native ids are distinct. -/
theorem collect_post_ids_nodup_witness :
    (c9Result.mentions.map Mention.post_id).Nodup :=
  (collect_post_ids_nodup_of_native_ids_nodup c9Client c9Config (fun _ => true)
    c9Topic none 100000 c9Result (by rfl) (by decide)).1

/-- C1 counterexample: the same post returned by the searches of two
different communities is emitted twice with the same `post_id`, so the
claimed uniqueness fails. -/
theorem collect_duplicate_post_ids_example :
    mentionIds (collect dupClient dupConfig (fun _ => true)
        ⟨some "stock", some (.valid ["GME"])⟩ (some 0) 0)
      = ["reddit_p1", "reddit_p1"] ∧
    ¬ (mentionIds (collect dupClient dupConfig (fun _ => true)
        ⟨some "stock", some (.valid ["GME"])⟩ (some 0) 0)).Nodup :=
  ⟨by decide, by decide⟩

/-- C2 counterexample: `stalePost` was created 30 hours before `now = 0`
while its comment `staleFreshComment` is 30 minutes old (inside the 24-hour
window), yet `collect` emits nothing at all: the `continue` on line 70 skips
the whole loop body, comment collection included. -/
theorem old_post_fresh_comment_dropped_example :
    (-86400 : Int) ≤ staleFreshComment.created_utc ∧
      collect staleClient ⟨none, none, none, ["s1"]⟩ (fun _ => true)
        ⟨none, some (.valid ["k"])⟩ none 0 = .ok ⟨[], [("k", "s1")]⟩ :=
  ⟨by decide, rfl⟩

/-- C2, amended: a post created earlier than the window start is skipped
entirely together with all of its comments — it contributes no mentions and
processing moves on to the remaining submissions; comments are independently
time-filtered only when their parent post is in-window. -/
theorem old_post_skips_comments (validate : Mention → Bool) (since : Int)
    (s : Submission) (rest : List Submission)
    (h : s.created_utc < since) :
    submissionMentions validate since s = ([], false) ∧
      processSubmissions validate since (s :: rest)
        = processSubmissions validate since rest := by
  have h1 : submissionMentions validate since s = ([], false) := by
    unfold submissionMentions
    rw [if_pos h]
  exact ⟨h1, by simp [processSubmissions, h1]⟩

/-- Witness for C2's amended theorem at the stale-post fixture. -/
theorem old_post_skips_comments_witness :
    submissionMentions (fun _ => true) (-86400) stalePost = ([], false) ∧
      processSubmissions (fun _ => true) (-86400) [stalePost]
        = processSubmissions (fun _ => true) (-86400) [] :=
  old_post_skips_comments (fun _ => true) (-86400) stalePost [] (by decide)

/-- C3: every mention returned by `collect` has `posted_at` at or after the
effective window start — the `since` argument when provided, otherwise `now`
minus 24 hours (86400 seconds). -/
theorem collect_posted_at_ge_window_start (client : Client) (config : Config)
    (validate : Mention → Bool) (topic : Topic) (since : Option Int) (now : Int)
    (r : CollectResult)
    (hok : collect client config validate topic since now = .ok r) :
    ∀ m ∈ r.mentions, since.getD (now - 86400) ≤ m.posted_at :=
  fun m hm =>
    (mem_collect_mentions client config validate topic since now r hok m hm).1

/-- Witness for C3 on the engagement scenario's post mention. -/
theorem collect_posted_at_ge_window_start_witness :
    (none : Option Int).getD (100000 - 86400) ≤ (postMention c9Post).posted_at :=
  collect_posted_at_ge_window_start c9Client c9Config (fun _ => true) c9Topic
    none 100000 c9Result (by rfl) (postMention c9Post) (by simp [c9Result])

/-- C4 counterexample: when the platform client constructor raises, the
collector's constructor fails with `SourceCollectionError` (wrapping the
cause's message), not with `SourceInitializationError` as claimed. -/
theorem init_failure_raises_collection_error_example :
    redditSourceInit (fun _ _ _ => .error "received 401 HTTP response") 1 "reddit"
        ⟨some "bad", some "bad", none, []⟩
      = .error (.sourceCollectionError
          "Failed to initialize Reddit client: received 401 HTTP response") ∧
    isInitializationError
        (redditSourceInit (fun _ _ _ => .error "received 401 HTTP response") 1 "reddit"
          ⟨some "bad", some "bad", none, []⟩) = false :=
  ⟨rfl, rfl⟩

/-- C4, amended: for every config on which the platform client constructor
raises, construction fails with `SourceCollectionError` (not
`SourceInitializationError`) whose message includes the underlying cause's
message. -/
theorem init_failure_wraps_cause
    (praw_Reddit : String → String → String → Except String Client)
    (source_id : Int) (source_name : String) (config : Config) (e : String)
    (h : praw_Reddit (config.client_id.getD "") (config.client_secret.getD "")
        (config.user_agent.getD "SocialSentimentTracker/1.0") = .error e) :
    redditSourceInit praw_Reddit source_id source_name config
      = .error (.sourceCollectionError
          ("Failed to initialize Reddit client: " ++ e)) := by
  unfold redditSourceInit
  rw [h]

/-- Witness for C4's amended theorem. -/
theorem init_failure_wraps_cause_witness :
    redditSourceInit (fun _ _ _ => .error "bad credentials") 7 "reddit"
        ⟨none, none, none, []⟩
      = .error (.sourceCollectionError
          "Failed to initialize Reddit client: bad credentials") :=
  init_failure_wraps_cause (fun _ _ _ => .error "bad credentials") 7 "reddit"
    ⟨none, none, none, []⟩ "bad credentials" rfl

/-- C5 counterexample: a present but unparseable `keywords` value makes
`collect` raise the JSON parse error instead of returning the claimed empty
result. -/
theorem unparseable_keywords_raises_example :
    collect emptyClient ⟨none, none, none, []⟩ (fun _ => true)
        ⟨none, some (.invalid "Expecting value: line 1 column 1 (char 0)")⟩ none 0
      = .error (.jsonDecodeError "Expecting value: line 1 column 1 (char 0)") ∧
    ¬ collect emptyClient ⟨none, none, none, []⟩ (fun _ => true)
        ⟨none, some (.invalid "Expecting value: line 1 column 1 (char 0)")⟩ none 0
      = .ok ⟨[], []⟩ :=
  ⟨rfl, by simp [collect, jsonLoads]⟩

/-- C5, amended: only an absent `keywords` key is defaulted (to `[]`, hence
an empty result); a present but unparseable `keywords` value makes `collect`
propagate the JSON parse error uncaught. -/
theorem unparseable_keywords_raises (client : Client) (config : Config)
    (validate : Mention → Bool) (topic : Topic) (since : Option Int) (now : Int)
    (e : String) (h : topic.keywords = some (.invalid e)) :
    collect client config validate topic since now
      = .error (.jsonDecodeError e) :=
  collect_invalid_eq client config validate topic since now e (by rw [h]; rfl)

/-- Witness for C5's amended theorem. -/
theorem unparseable_keywords_raises_witness :
    collect emptyClient ⟨none, none, none, []⟩ (fun _ => true)
        ⟨none, some (.invalid "bad json")⟩ (some 0) 0
      = .error (.jsonDecodeError "bad json") :=
  unparseable_keywords_raises emptyClient ⟨none, none, none, []⟩ (fun _ => true)
    ⟨none, some (.invalid "bad json")⟩ (some 0) 0 "bad json" rfl

/-- C6: for every client, a topic whose keyword list is absent or parses to
the empty sequence makes `collect` return the empty mention list with an
empty search-call trace — zero platform calls. -/
theorem collect_empty_keywords_no_calls (client : Client) (config : Config)
    (validate : Mention → Bool) (topic : Topic) (since : Option Int) (now : Int)
    (h : topic.keywords = none ∨ topic.keywords = some (.valid [])) :
    collect client config validate topic since now = .ok ⟨[], []⟩ := by
  rcases h with h | h <;>
    exact collect_nil_eq client config validate topic since now (by rw [h]; rfl)

/-- Witness for C6: even against a client that returns posts everywhere, an
absent keyword list yields the empty result and no calls. -/
theorem collect_empty_keywords_no_calls_witness :
    collect dupClient dupConfig (fun _ => true) ⟨some "stock", none⟩ none 0
      = .ok ⟨[], []⟩ :=
  collect_empty_keywords_no_calls dupClient dupConfig (fun _ => true)
    ⟨some "stock", none⟩ none 0 (Or.inl rfl)

/-- C7: a community whose search raises is isolated — the run returns exactly
what it would had that community returned no results, and with a parseable
keyword list no exception reaches the caller. -/
theorem collect_community_failure_isolated (client : Client) (config : Config)
    (validate : Mention → Bool) (topic : Topic) (since : Option Int) (now : Int)
    (sr kw e : String)
    (hfail : client.search sr kw = .error e) :
    collect (replaceSearch client sr kw []) config validate topic since now
        = collect client config validate topic since now ∧
      ∀ kws, jsonLoads (topic.keywords.getD (.valid [])) = .ok kws →
        ∃ r, collect client config validate topic since now = .ok r := by
  constructor
  · cases hkw : jsonLoads (topic.keywords.getD (.valid [])) with
    | error e2 =>
      rw [collect_invalid_eq _ config validate topic since now e2 hkw,
          collect_invalid_eq _ config validate topic since now e2 hkw]
    | ok kws =>
      by_cases hne : kws = []
      · subst hne
        rw [collect_nil_eq _ config validate topic since now hkw,
            collect_nil_eq _ config validate topic since now hkw]
      · rw [collect_valid_eq _ config validate topic since now kws hkw hne,
            collect_valid_eq _ config validate topic since now kws hkw hne]
        simp only [collectFromSubreddit_replaceSearch client validate sr kw e hfail]
  · intro kws hkw
    by_cases hne : kws = []
    · subst hne
      exact ⟨⟨[], []⟩, collect_nil_eq client config validate topic since now hkw⟩
    · exact ⟨_, collect_valid_eq client config validate topic since now kws hkw hne⟩

/-- Witness for C7: with `wallstreetbets` failing and `stocks` succeeding,
the run equals the one where `wallstreetbets` simply returned nothing. -/
theorem collect_community_failure_isolated_witness :
    collect (replaceSearch c7Client "wallstreetbets" "GME" []) c7Config
        (fun _ => true) c9Topic (some 0) 0
      = collect c7Client c7Config (fun _ => true) c9Topic (some 0) 0 :=
  (collect_community_failure_isolated c7Client c7Config (fun _ => true) c9Topic
    (some 0) 0 "wallstreetbets" "GME" "connection error" rfl).1

/-- C8: community resolution returns the config's non-empty `subreddits`
override verbatim for every topic type; otherwise the per-type defaults,
with `all` for `keyword` and for every unknown type. -/
theorem getRelevantSubreddits_resolution (config : Config) :
    (∀ t, config.subreddits ≠ [] →
        getRelevantSubreddits config t = config.subreddits) ∧
    (config.subreddits = [] →
      getRelevantSubreddits config "stock"
          = ["wallstreetbets", "stocks", "investing", "stockmarket", "options"] ∧
        getRelevantSubreddits config "topic"
          = ["technology", "Futurology", "science", "news"] ∧
        getRelevantSubreddits config "keyword" = ["all"] ∧
        ∀ t, t ≠ "stock" → t ≠ "topic" → t ≠ "keyword" →
          getRelevantSubreddits config t = ["all"]) := by
  refine ⟨fun t ht => by simp [getRelevantSubreddits, ht], fun hempty => ?_⟩
  refine ⟨by simp [getRelevantSubreddits, hempty],
          by simp [getRelevantSubreddits, hempty],
          by simp [getRelevantSubreddits, hempty],
          fun t h1 h2 h3 => by simp [getRelevantSubreddits, hempty, h1, h2, h3]⟩

/-- Witness for C8: a two-element override wins for type `stock`; with no
override, `unknown_type` resolves to `all`. -/
theorem getRelevantSubreddits_resolution_witness :
    getRelevantSubreddits ⟨none, none, none, ["foo", "bar"]⟩ "stock"
        = ["foo", "bar"] ∧
      getRelevantSubreddits ⟨none, none, none, []⟩ "unknown_type" = ["all"] :=
  ⟨(getRelevantSubreddits_resolution ⟨none, none, none, ["foo", "bar"]⟩).1 "stock"
      (by decide),
   ((getRelevantSubreddits_resolution ⟨none, none, none, []⟩).2 rfl).2.2.2
      "unknown_type" (by decide) (by decide) (by decide)⟩

/-- C9: the raw engagement score is upvote score plus comment count for
posts and upvote score alone for comments; on the spec's scenario (one post
scored 100 with 5 comments, two comments scored 2) `collect` emits exactly 3
mentions with engagement scores 105, 2, 2. -/
theorem engagement_score_spec :
    (∀ s : Submission,
        (postMention s).engagement_score = s.score + s.num_comments) ∧
    (∀ c : RComment, (commentMention c).engagement_score = c.score) ∧
    collect c9Client c9Config (fun _ => true) c9Topic none 100000
        = .ok c9Result ∧
    c9Result.mentions.length = 3 ∧
    mentionEngagements
        (collect c9Client c9Config (fun _ => true) c9Topic none 100000)
      = [105, 2, 2] :=
  ⟨fun _ => rfl, fun _ => rfl, rfl, rfl, by decide⟩

/-- C10: a topic dict without a `type` key resolves — absent a config
override — to the `topic` default community list, and `collect` issues its
searches against exactly those four communities. -/
theorem missing_type_defaults_to_topic (client : Client) (config : Config)
    (validate : Mention → Bool) (topic : Topic) (since : Option Int) (now : Int)
    (kws : List String)
    (htype : topic.type = none) (hsub : config.subreddits = [])
    (hkw : topic.keywords = some (.valid kws)) (hne : kws ≠ []) :
    getRelevantSubreddits config (topic.type.getD "topic")
        = ["technology", "Futurology", "science", "news"] ∧
      ∃ r, collect client config validate topic since now = .ok r ∧
        r.calls = kws.flatMap fun kw =>
          ["technology", "Futurology", "science", "news"].map
            fun sr => (kw, sr) := by
  have hres : getRelevantSubreddits config (topic.type.getD "topic")
      = ["technology", "Futurology", "science", "news"] := by
    rw [htype]
    simp [getRelevantSubreddits, hsub]
  refine ⟨hres, ⟨_,
    collect_valid_eq client config validate topic since now kws (by rw [hkw]; rfl) hne,
    ?_⟩⟩
  rw [hres]

/-- Witness for C10. -/
theorem missing_type_defaults_to_topic_witness :
    getRelevantSubreddits ⟨none, none, none, []⟩
        ((none : Option String).getD "topic")
      = ["technology", "Futurology", "science", "news"] :=
  (missing_type_defaults_to_topic emptyClient ⟨none, none, none, []⟩
    (fun _ => true) ⟨none, some (.valid ["ai"])⟩ none 0 ["ai"]
    rfl rfl rfl (by decide)).1

end SentimentTracker
